import Mathlib

/-!
Verification of the peer-networking and sync core of the lighthouse beacon node.

The definitions below are a shallow embedding of
`src/beacon_node/network/src/sync/simple_sync.rs`,
`src/beacon_node/eth2-libp2p/src/behaviour.rs` and
`src/eth2/utils/lighthouse_bls/src/signature.rs`.

Conventions of the embedding:
* `Hash256` values are represented as `Nat`; the all-zero hash is `0`.
* `Slot`, `Epoch`, `RequestId` and peer identifiers are `Nat`.
* The beacon chain, block/state store and BLS primitives are external
  collaborators of this core; they appear as explicit function-valued fields of
  environment structures (`ChainEnv`, `ForwardEnv`), so every handler is a pure
  function of its inputs and the environment.
* Channel sends are modelled as the list of messages the handler emits, in
  emission order.
-/

/-- Syncing information for a peer, mirroring `PeerSyncInfo` in
`simple_sync.rs` (lines 32-39).  `HelloMessage` (defined in the
`eth2-libp2p` rpc module, outside `src/`) carries exactly the same five
fields and converts field-by-field (`simple_sync.rs` lines 41-51), so the
same structure stands for both. -/
structure PeerSyncInfo where
  forkVersion : Nat
  finalizedRoot : Nat
  finalizedEpoch : Nat
  headRoot : Nat
  headSlot : Nat
deriving DecidableEq

/-- A beacon block, reduced to the fields this core reads: its slot, parent
root, state root and signature (`types` crate, used by `simple_sync.rs`). -/
structure BeaconBlock where
  slot : Nat
  parentRoot : Nat
  stateRoot : Nat
  signature : Nat
deriving DecidableEq

/-- Modelled from the spec: `Goodbye(reason)` RPC request reason; the only
reason this core emits is `IrrelevantNetwork` (the rpc `methods` module is
outside `src/`). -/
inductive GoodbyeReason where
  | irrelevantNetwork
  | otherReason (code : Nat)
deriving DecidableEq

/-- Modelled from the spec: `RPCRequest` variants `Hello(HelloMessage)`,
`Goodbye(reason)`, `BeaconBlocks{start_slot, count}`,
`RecentBeaconBlocks{block_roots}` (§3; the rpc module is outside `src/`). -/
inductive RPCRequest where
  | hello (h : PeerSyncInfo)
  | goodbye (r : GoodbyeReason)
  | beaconBlocks (startSlot count : Nat)
  | recentBeaconBlocks (blockRoots : List Nat)
deriving DecidableEq

/-- Modelled from the spec: `RPCResponse` variants `Hello(HelloMessage)` and
`BeaconBlocks(bytes)`; the SSZ-encoded byte blob is represented by the list
of blocks it encodes (§3; encoding is an external codec). -/
inductive RPCResponse where
  | hello (h : PeerSyncInfo)
  | beaconBlocks (blocks : List BeaconBlock)
deriving DecidableEq

/-- Modelled from the spec: successful RPC response wrapper
(`RPCErrorResponse::Success`); error responses are never emitted by this core
(§4.D). -/
inductive RPCErrorResponse where
  | success (r : RPCResponse)
deriving DecidableEq

/-- Modelled from the spec: `RPCEvent` is `Request(request_id, RPCRequest)` or
`Response(request_id, RPCResponse)` (§3). -/
inductive RPCEvent where
  | request (requestId : Nat) (req : RPCRequest)
  | response (requestId : Nat) (resp : RPCErrorResponse)
deriving DecidableEq

/-- Outbound command to the network service: `NetworkMessage::RPC(peer, event)`
as enqueued by `NetworkContext::send_rpc_event`. -/
inductive NetworkMessage where
  | rpc (peer : Nat) (event : RPCEvent)
deriving DecidableEq

/-- `SyncMessage` values sent to the sync manager (variants listed in §3 and
used by `simple_sync.rs`). -/
inductive SyncMsg where
  | disconnect (peer : Nat)
  | addPeer (peer : Nat) (info : PeerSyncInfo)
  | unknownBlock (peer : Nat) (block : BeaconBlock)
  | beaconBlocksResponse (peer requestId : Nat) (blocks : List BeaconBlock)
  | recentBeaconBlocksResponse (peer requestId : Nat) (blocks : List BeaconBlock)
deriving DecidableEq

/-- `NetworkContext::send_rpc_request` (`simple_sync.rs` lines 665-674):
substitutes request id `0` when none is given and wraps the request as
`RPCEvent::Request`. -/
def sendRpcRequestEvent (requestId : Option Nat) (req : RPCRequest) : RPCEvent :=
  RPCEvent.request (requestId.getD 0) req

/-- `NetworkContext::disconnect` (`simple_sync.rs` lines 654-663): sends a
`Goodbye(reason)` request with no request id. -/
def disconnectEvent (reason : GoodbyeReason) : RPCEvent :=
  sendRpcRequestEvent none (RPCRequest.goodbye reason)

/-- `NetworkContext::send_rpc_response` (`simple_sync.rs` lines 677-687):
wraps the response as `RPCEvent::Response(request_id, Success(resp))`. -/
def sendRpcResponseEvent (requestId : Nat) (resp : RPCResponse) : RPCEvent :=
  RPCEvent.response requestId (RPCErrorResponse.success resp)

/-- The chain lookups `process_hello` consults, abstracting
`self.chain`: `root_at_slot` and `store.exists::<BeaconBlock>` (with errors
already collapsed by `unwrap_or_else(|_| false)`), plus the spec constant
`slots_per_epoch`. -/
structure ChainEnv where
  rootAtSlot : Nat → Option Nat
  blockExists : Nat → Bool
  slotsPerEpoch : Nat

/-- Modelled from the spec: `start_slot(epoch) = epoch × slots_per_epoch`
(§4.B; `Epoch::start_slot` lives in the `types` crate, outside `src/`). -/
def startSlotOfEpoch (epoch slotsPerEpoch : Nat) : Nat :=
  epoch * slotsPerEpoch

/-- `MessageProcessor::process_hello` (`simple_sync.rs` lines 159-241),
with the local `PeerSyncInfo` (derived from the chain head in the source)
passed explicitly.  Returns the emitted network messages and sync messages in
emission order. -/
def processHello (env : ChainEnv) (peer : Nat) (loc remote : PeerSyncInfo) :
    List NetworkMessage × List SyncMsg :=
  if loc.forkVersion ≠ remote.forkVersion then
    ([NetworkMessage.rpc peer (disconnectEvent GoodbyeReason.irrelevantNetwork)], [])
  else if remote.finalizedEpoch ≤ loc.finalizedEpoch ∧
      remote.finalizedRoot ≠ 0 ∧ loc.finalizedRoot ≠ 0 ∧
      env.rootAtSlot (startSlotOfEpoch remote.finalizedEpoch env.slotsPerEpoch) ≠
        some remote.finalizedRoot then
    ([NetworkMessage.rpc peer (disconnectEvent GoodbyeReason.irrelevantNetwork)], [])
  else if remote.finalizedEpoch < loc.finalizedEpoch then
    ([], [])
  else if env.blockExists remote.headRoot then
    ([], [SyncMsg.addPeer peer remote])
  else
    ([], [SyncMsg.addPeer peer remote])

/-- The three externally visible handshake outcomes (§4.B). -/
inductive HelloOutcome where
  | disconnectIrrelevant
  | ignorePeer
  | addPeer
deriving DecidableEq

/-- The five-branch classification table of §4.B, evaluated top-to-bottom with
the first matching branch deciding; returns the branch number 1-5. -/
def helloBranch (env : ChainEnv) (loc remote : PeerSyncInfo) : Nat :=
  if remote.forkVersion ≠ loc.forkVersion then 1
  else if remote.finalizedEpoch ≤ loc.finalizedEpoch ∧
      remote.finalizedRoot ≠ 0 ∧ loc.finalizedRoot ≠ 0 ∧
      env.rootAtSlot (startSlotOfEpoch remote.finalizedEpoch env.slotsPerEpoch) ≠
        some remote.finalizedRoot then 2
  else if remote.finalizedEpoch < loc.finalizedEpoch then 3
  else if env.blockExists remote.headRoot then 4
  else 5

/-- Outcome assigned to each branch of the §4.B table: branches 1-2 disconnect
with `IrrelevantNetwork`, branch 3 ignores, branches 4-5 add the peer. -/
def branchOutcome (branch : Nat) : HelloOutcome :=
  if branch ≤ 2 then HelloOutcome.disconnectIrrelevant
  else if branch = 3 then HelloOutcome.ignorePeer
  else HelloOutcome.addPeer

/-- The messages each handshake outcome emits. -/
def outcomeEffects (peer : Nat) (remote : PeerSyncInfo) :
    HelloOutcome → List NetworkMessage × List SyncMsg
  | HelloOutcome.disconnectIrrelevant =>
      ([NetworkMessage.rpc peer (disconnectEvent GoodbyeReason.irrelevantNetwork)], [])
  | HelloOutcome.ignorePeer => ([], [])
  | HelloOutcome.addPeer => ([], [SyncMsg.addPeer peer remote])

/-- `MessageProcessor::on_hello_request` (`simple_sync.rs` lines 129-146):
responds with the local hello, then runs `process_hello`. -/
def onHelloRequest (env : ChainEnv) (peer requestId : Nat)
    (loc remote : PeerSyncInfo) : List NetworkMessage × List SyncMsg :=
  let r := processHello env peer loc remote
  (NetworkMessage.rpc peer (sendRpcResponseEvent requestId (RPCResponse.hello loc)) :: r.1,
    r.2)

/-- The request ids of the RPC responses contained in a message trace. -/
def responseIdsOf (msgs : List NetworkMessage) : List Nat :=
  msgs.filterMap fun m =>
    match m with
    | NetworkMessage.rpc _ (RPCEvent.response rid _) => some rid
    | _ => none

/-- Wrapping 64-bit addition: the value `req.start_slot + req.count` computes
to in the release-mode `u64` arithmetic of `on_beacon_blocks_request`
(`simple_sync.rs` line 308). -/
def beaconBlocksUpperBoundWrapped (startSlot count : Nat) : Nat :=
  (startSlot + count) % 2 ^ 64

/-- Whether the unchecked `u64` addition `start_slot + count` overflows (in
which case a debug build panics and a release build wraps). -/
def u64AddOverflows (a b : Nat) : Bool :=
  decide (2 ^ 64 ≤ a + b)

/-- Rust `Vec::dedup_by_key` with the key function `f`: removes consecutive
elements whose key equals the key of the last retained element. -/
def dedupByKeyAux (f : α → Nat) (last : α) : List α → List α
  | [] => []
  | b :: rest =>
    if f last = f b then dedupByKeyAux f last rest
    else b :: dedupByKeyAux f b rest

/-- Rust `Vec::dedup_by_key`, entry point. -/
def dedupByKey (f : α → Nat) : List α → List α
  | [] => []
  | a :: rest => a :: dedupByKeyAux f a rest

/-- The block list computed by `MessageProcessor::on_beacon_blocks_request`
(`simple_sync.rs` lines 304-328).  `revIter` is the output of
`chain.rev_iter_block_roots()`, a list of `(root, slot)` pairs walking from
the head backwards; `store` is `chain.store.get::<BeaconBlock>` with errors
collapsed to `none`.  The upper range bound is the wrapping `u64` sum the
source computes. -/
def onBeaconBlocksRequestBlocks (revIter : List (Nat × Nat))
    (store : Nat → Option BeaconBlock) (startSlot count : Nat) : List BeaconBlock :=
  let l1 := revIter.filter fun p =>
    decide (startSlot ≤ p.2) && decide (beaconBlocksUpperBoundWrapped startSlot count > p.2)
  let l2 := l1.takeWhile fun p => decide (startSlot ≤ p.2)
  let l3 := l2.filterMap fun p => store p.1
  let l4 := l3.filter fun b => decide (startSlot ≤ b.slot)
  dedupByKey (fun b => b.slot) l4.reverse

/-- `MessageProcessor::on_beacon_blocks_request` (`simple_sync.rs` lines
285-346): the full handler, emitting a single RPC response. -/
def onBeaconBlocksRequest (revIter : List (Nat × Nat))
    (store : Nat → Option BeaconBlock) (peer requestId startSlot count : Nat) :
    List NetworkMessage :=
  [NetworkMessage.rpc peer (sendRpcResponseEvent requestId
    (RPCResponse.beaconBlocks (onBeaconBlocksRequestBlocks revIter store startSlot count)))]

/-- `MessageProcessor::on_recent_beacon_blocks_request` (`simple_sync.rs`
lines 244-282): resolves each requested root against the store, skipping
misses, and emits a single RPC response. -/
def onRecentBeaconBlocksRequest (store : Nat → Option BeaconBlock)
    (peer requestId : Nat) (blockRoots : List Nat) : List NetworkMessage :=
  [NetworkMessage.rpc peer (sendRpcResponseEvent requestId
    (RPCResponse.beaconBlocks (blockRoots.filterMap store)))]

/-- A gossipsub message as keyed by the seen-gossip cache.  Per §3 and §9 of
the spec the cache keys are whole messages, identified by their content and
topic set (the `GossipsubMessage` type itself lives in the external libp2p
crate).  Topic hashes and payload bytes are represented as `Nat` lists. -/
structure GsMessage where
  topics : List Nat
  data : List Nat
deriving DecidableEq

/-- `LruCache::put` from the `lru` crate as used with unit values
(`behaviour.rs` line 95): the cache is the key list in most-recently-used
order.  Returns whether the key was already present (`put(..).is_some()`)
together with the updated cache; a fresh insertion at capacity evicts the
least recently used key. -/
def lruPut (cap : Nat) (cache : List GsMessage) (k : GsMessage) :
    Bool × List GsMessage :=
  if k ∈ cache then (true, k :: cache.erase k)
  else (false, (k :: cache).take cap)

/-- Events enqueued by the behaviour (`BehaviourEvent`, `behaviour.rs` lines
245-265), over an abstract decoded-message type `μ`. -/
inductive BEvent (μ : Type) where
  | rpc (peer : Nat) (event : RPCEvent)
  | peerDialed (peer : Nat)
  | peerDisconnected (peer : Nat)
  | gossipMessage (id : Nat) (source : Nat) (topics : List Nat) (message : μ)
  | peerSubscribed (peer : Nat) (topic : Nat)
deriving DecidableEq

/-- The behaviour state touched by gossip handling: the seen-gossip LRU cache
(capacity 256, `behaviour.rs` line 71) and the pending event queue. -/
structure BehaviourState (μ : Type) where
  seen : List GsMessage
  events : List (BEvent μ)
deriving DecidableEq

/-- The seen-gossip cache capacity (`behaviour.rs` line 71). -/
def SEEN_CACHE_CAPACITY : Nat := 256

/-- `inject_event` for `GossipsubEvent::Message` (`behaviour.rs` lines
90-111): put the message into the seen cache; if it was absent, decode it
against its topics and on success enqueue a `GossipMessage` event; duplicates
and undecodable messages are dropped.  `decode` is
`PubsubMessage::decode` (external codec), returning `none` on failure. -/
def injectGossipMessage (decode : List Nat → List Nat → Option μ)
    (st : BehaviourState μ) (source id : Nat) (m : GsMessage) :
    BehaviourState μ :=
  let p := lruPut SEEN_CACHE_CAPACITY st.seen m
  if p.1 = false then
    match decode m.topics m.data with
    | none => { seen := p.2, events := st.events }
    | some msg =>
        { seen := p.2,
          events := st.events ++ [BEvent.gossipMessage id source m.topics msg] }
  else { seen := p.2, events := st.events }

/-- Injecting a sequence of gossip `Message` events all carrying the same
message `m`, from the given propagation sources and message ids. -/
def injectCopies (decode : List Nat → List Nat → Option μ) (m : GsMessage) :
    List (Nat × Nat) → BehaviourState μ → BehaviourState μ
  | [], st => st
  | (source, id) :: rest, st =>
      injectCopies decode m rest (injectGossipMessage decode st source id m)

/-- `MAX_IDENTIFY_ADDRESSES` (`behaviour.rs` line 21). -/
def MAX_IDENTIFY_ADDRESSES : Nat := 20

/-- `inject_event` for `IdentifyEvent::Received` (`behaviour.rs` lines
155-176): the effect on `info.listen_addrs` — lists longer than the cap are
truncated to the cap before any further use; addresses are `Nat`s. -/
def identifyReceivedListenAddrs (addrs : List Nat) : List Nat :=
  if addrs.length > MAX_IDENTIFY_ADDRESSES then addrs.take MAX_IDENTIFY_ADDRESSES
  else addrs

/-- A validator record, reduced to the field `should_forward_block` reads. -/
structure Validator where
  pubkey : Nat
deriving DecidableEq

/-- A beacon state, reduced to the fields `should_forward_block` reads:
slot, fork and validator registry.  The committee caches the source builds
in place are carried implicitly by the environment operations below. -/
structure BeaconStateModel where
  slot : Nat
  fork : Nat
  validators : List Validator
deriving DecidableEq

/-- `RelativeEpoch` from the `types` crate (outside `src/`). -/
inductive RelativeEpoch where
  | previous
  | current
  | next
deriving DecidableEq

/-- BLS signing-domain tags; `should_forward_block` uses only
`Domain::BeaconProposer`. -/
inductive DomainTag where
  | beaconProposer
deriving DecidableEq

/-- The external collaborators of `should_forward_block`
(`simple_sync.rs` lines 438-536), as explicit functions: the block/state
store, the chain head, and the `types`/`state_processing`/BLS operations the
body calls.  Store errors are collapsed into `none`, mirroring the source's
`if let Ok(Some(..))` patterns; fallible in-place state operations return the
updated state or `none`. -/
structure ForwardEnv where
  storeBlock : Nat → Option BeaconBlock
  storeState : Nat → Option BeaconStateModel
  headStateRoot : Nat
  headState : BeaconStateModel
  slotsPerEpoch : Nat
  relativeEpochFromSlot : Nat → Nat → Option RelativeEpoch
  perSlotProcessing : BeaconStateModel → Option BeaconStateModel
  buildCommitteeCache : BeaconStateModel → RelativeEpoch → Option BeaconStateModel
  getBeaconProposerIndex : BeaconStateModel → Nat → RelativeEpoch → Option Nat
  getDomain : Nat → DomainTag → Nat → Nat
  signedRoot : BeaconBlock → Nat
  verify : Nat → Nat → Nat → Nat → Bool

/-- First section of `should_forward_block` (lines 441-465): resolve the
parent block by `block.parent_root`, then a state for it — the in-memory head
state when the parent's state root matches the head state root, otherwise a
store read. -/
def resolveParentAndState (env : ForwardEnv) (block : BeaconBlock) :
    Option (BeaconBlock × BeaconStateModel) :=
  match env.storeBlock block.parentRoot with
  | none => none
  | some parent =>
    match
      (if env.headStateRoot = parent.stateRoot then some env.headState
       else env.storeState parent.stateRoot) with
    | some st => some (parent, st)
    | none => none

/-- The `for _ in state.slot..block.slot` fast-forward loop (lines 488-493):
apply `per_slot_processing` the given number of times, failing if any step
fails. -/
def advanceSlots (env : ForwardEnv) : Nat → BeaconStateModel → Option BeaconStateModel
  | 0, st => some st
  | n + 1, st =>
    match env.perSlotProcessing st with
    | none => none
    | some st' => advanceSlots env n st'

/-- Second section of `should_forward_block` (lines 470-506): determine the
relative epoch between parent and block; when none exists, reject states
ahead of the block, fast-forward to the block's slot, and build the current
committee cache. -/
def resolveEpochState (env : ForwardEnv) (block parent : BeaconBlock)
    (st : BeaconStateModel) : Option (BeaconStateModel × RelativeEpoch) :=
  match env.relativeEpochFromSlot parent.slot block.slot with
  | some rel => some (st, rel)
  | none =>
    if block.slot < st.slot then none
    else
      match advanceSlots env (block.slot - st.slot) st with
      | none => none
      | some st' =>
        match env.buildCommitteeCache st' RelativeEpoch.current with
        | none => none
        | some st'' => some (st'', RelativeEpoch.current)

/-- `MessageProcessor::should_forward_block` (`simple_sync.rs` lines
438-536): resolve parent and state, fix the relative epoch, compute the
proposer at the block's slot, and verify `block.signature` over
`block.signed_root()` under the `BeaconProposer` domain for the block's
epoch; every intermediate failure yields `false`. -/
def shouldForwardBlock (env : ForwardEnv) (block : BeaconBlock) : Bool :=
  match resolveParentAndState env block with
  | none => false
  | some (parent, st) =>
    match resolveEpochState env block parent st with
    | none => false
    | some (st', rel) =>
      match
        (match env.getBeaconProposerIndex st' block.slot rel with
         | none => none
         | some i => st'.validators[i]?) with
      | none => false
      | some proposer =>
        env.verify block.signature proposer.pubkey (env.signedRoot block)
          (env.getDomain (block.slot / env.slotsPerEpoch) DomainTag.beaconProposer st'.fork)

/-- `Signature::verify` from `lighthouse_bls/src/signature.rs` (lines 50-52):
the body is `self.verify(pubkey, msg)`, which resolves to the wrapper itself,
so each call only makes another identical call.  `fuel` bounds the call
depth; `pointResult` is what `TSignature::verify` on `self.point` would
return, and `none` means the call has not produced a value within the given
depth. -/
def signatureVerifyCalls (pointResult : Bool) : Nat → Option Bool
  | 0 => none
  | fuel + 1 => signatureVerifyCalls pointResult fuel

/-- `Signature::fast_aggregate_verify` (lines 54-56): identical self-call
shape. -/
def signatureFastAggregateVerifyCalls (pointResult : Bool) : Nat → Option Bool
  | 0 => none
  | fuel + 1 => signatureFastAggregateVerifyCalls pointResult fuel

/-- The wrapper body the surrounding code intends (and every sibling wrapper
in the file uses): delegate to the point implementation, `self.point.verify`. -/
def signatureVerifyIntended (pointResult : Bool) : Option Bool :=
  some pointResult

/-- Concrete local sync info: same fork and finalized checkpoint as
`cexRemote`. -/
def cexLocal : PeerSyncInfo := ⟨0, 1, 5, 7, 40⟩

/-- Concrete remote sync info with the same fork version and finalized epoch
as `cexLocal` and a non-zero finalized root. -/
def cexRemote : PeerSyncInfo := ⟨0, 1, 5, 9, 41⟩

/-- A chain whose block root at the relevant start slot differs from the
remote finalized root. -/
def cexEnvDifferentChain : ChainEnv := ⟨fun _ => some 2, fun _ => false, 8⟩

/-- A chain whose block root at the relevant start slot equals the remote
finalized root (and whose store holds no blocks). -/
def cexEnvSameChain : ChainEnv := ⟨fun _ => some 1, fun _ => false, 8⟩

/-- Scenario S3 local info: finalized epoch 100. -/
def witLocalS3 : PeerSyncInfo := ⟨0, 1, 100, 7, 800⟩

/-- Scenario S3 remote info: same fork, finalized epoch 120, head unknown to
the local store. -/
def witRemoteS3 : PeerSyncInfo := ⟨0, 1, 120, 9, 900⟩

/-- Scenario S1 remote info: fork version differing from `witLocalS3`. -/
def witRemoteS1 : PeerSyncInfo := ⟨1, 1, 100, 9, 800⟩

/-- A forwarding environment in which one parent block (root 1) is stored,
its state root matches the head state, the proposer lookup succeeds and the
signature check passes. -/
def fwdWitnessEnv : ForwardEnv where
  storeBlock := fun r => if r = 1 then some ⟨0, 9, 7, 0⟩ else none
  storeState := fun _ => none
  headStateRoot := 7
  headState := ⟨0, 3, [⟨42⟩]⟩
  slotsPerEpoch := 8
  relativeEpochFromSlot := fun _ _ => some RelativeEpoch.current
  perSlotProcessing := fun st => some st
  buildCommitteeCache := fun st _ => some st
  getBeaconProposerIndex := fun _ _ _ => some 0
  getDomain := fun _ _ _ => 5
  signedRoot := fun _ => 11
  verify := fun _ _ _ _ => true

/-- A gossiped block whose parent root resolves in `fwdWitnessEnv`. -/
def fwdWitnessBlock : BeaconBlock := ⟨3, 1, 0, 77⟩

/-- Scenario S5 reverse block-root iterator: head at slot 15, blocks at slots
10, 11, 13, 14, 15, with the skipped slot 12 repeating the root of the block
at slot 11 (roots encode the slot of the block they point to). -/
def witRevIter : List (Nat × Nat) := [(15, 15), (14, 14), (13, 13), (11, 12), (11, 11), (10, 10)]

/-- Scenario S5 store: a block per root in `witRevIter`, with slot equal to
its root. -/
def witStore : Nat → Option BeaconBlock := fun r =>
  if r = 10 ∨ r = 11 ∨ r = 13 ∨ r = 14 ∨ r = 15 then some ⟨r, 0, 0, 0⟩ else none

/-- Scenario S4 gossip message. -/
def witGsMessage : GsMessage := ⟨[1], [2, 3]⟩

/-- A total decoder for the S4 scenario. -/
def witDecode : List Nat → List Nat → Option Nat := fun _ data => some data.length

/-! ### Helper lemmas -/

theorem dedupByKeyAux_sublist (f : α → Nat) :
    ∀ (l : List α) (last : α), List.Sublist (dedupByKeyAux f last l) l := by
  intro l
  induction l with
  | nil => intro last; simp [dedupByKeyAux]
  | cons b rest ih =>
    intro last
    simp only [dedupByKeyAux]
    split_ifs with h
    · exact (ih last).trans (List.sublist_cons_self b rest)
    · exact List.Sublist.cons₂ b (ih b)

theorem dedupByKey_sublist (f : α → Nat) :
    ∀ l : List α, List.Sublist (dedupByKey f l) l
  | [] => List.Sublist.refl []
  | a :: rest => List.Sublist.cons₂ a (dedupByKeyAux_sublist f rest a)

theorem dedupByKeyAux_strict (f : α → Nat) :
    ∀ (l : List α) (last : α), (∀ x ∈ l, f last ≤ f x) →
      l.Pairwise (fun x y => f x ≤ f y) →
      (∀ y ∈ dedupByKeyAux f last l, f last < f y) ∧
      (dedupByKeyAux f last l).Pairwise (fun x y => f x < f y) := by
  intro l
  induction l with
  | nil => intro last _ _; exact ⟨by simp [dedupByKeyAux], by simp [dedupByKeyAux]⟩
  | cons b rest ih =>
    intro last hle hp
    rw [List.pairwise_cons] at hp
    obtain ⟨hb, hrest⟩ := hp
    simp only [dedupByKeyAux]
    split_ifs with h
    · exact ih last (fun x hx => by rw [h]; exact hb x hx) hrest
    · have hlb : f last < f b :=
        lt_of_le_of_ne (hle b (List.mem_cons_self b rest)) h
      obtain ⟨hmem, hpw⟩ := ih b hb hrest
      constructor
      · intro y hy
        rcases List.mem_cons.mp hy with rfl | hy2
        · exact hlb
        · exact lt_trans hlb (hmem y hy2)
      · rw [List.pairwise_cons]
        exact ⟨hmem, hpw⟩

theorem dedupByKey_pairwise_lt (f : α → Nat) (l : List α)
    (hp : l.Pairwise (fun x y => f x ≤ f y)) :
    (dedupByKey f l).Pairwise (fun x y => f x < f y) := by
  cases l with
  | nil => simp [dedupByKey]
  | cons a rest =>
    rw [List.pairwise_cons] at hp
    obtain ⟨ha, hrest⟩ := hp
    simp only [dedupByKey]
    rw [List.pairwise_cons]
    obtain ⟨hmem, hpw⟩ := dedupByKeyAux_strict f rest a ha hrest
    exact ⟨hmem, hpw⟩

/-! ### Claim theorems -/

/-- Claim C4: for every `BeaconBlocks` range request, under the chain
invariants that every block fetched from the store sits at or below the slot
its root was listed for, and that block slots along the backward root
iterator are non-increasing, the response of `on_beacon_blocks_request` has
pairwise distinct slots in ascending order, all within
[start_slot, start_slot + count). -/
theorem beacon_blocks_response_sorted_distinct_in_range
    (revIter : List (Nat × Nat)) (store : Nat → Option BeaconBlock)
    (startSlot count : Nat)
    (hstore : ∀ p ∈ revIter, ((store p.1).all fun b => decide (b.slot ≤ p.2)) = true)
    (hmono : (revIter.filterMap fun p => store p.1).Pairwise fun a b => b.slot ≤ a.slot) :
    (onBeaconBlocksRequestBlocks revIter store startSlot count).Pairwise
      (fun a b => a.slot < b.slot) ∧
    ∀ b ∈ onBeaconBlocksRequestBlocks revIter store startSlot count,
      startSlot ≤ b.slot ∧ b.slot < startSlot + count := by
  have hdef : onBeaconBlocksRequestBlocks revIter store startSlot count =
      dedupByKey (fun b => b.slot)
        ((((revIter.filter fun p =>
              decide (startSlot ≤ p.2) &&
                decide (beaconBlocksUpperBoundWrapped startSlot count > p.2)).takeWhile
            fun p => decide (startSlot ≤ p.2)).filterMap fun p => store p.1).filter
            fun b => decide (startSlot ≤ b.slot)).reverse := rfl
  rw [hdef]
  have hsub2 : List.Sublist
      ((revIter.filter fun p =>
          decide (startSlot ≤ p.2) &&
            decide (beaconBlocksUpperBoundWrapped startSlot count > p.2)).takeWhile
        fun p => decide (startSlot ≤ p.2)) revIter :=
    (List.takeWhile_sublist _).trans (List.filter_sublist revIter)
  have hsub4 : List.Sublist
      ((((revIter.filter fun p =>
            decide (startSlot ≤ p.2) &&
              decide (beaconBlocksUpperBoundWrapped startSlot count > p.2)).takeWhile
          fun p => decide (startSlot ≤ p.2)).filterMap fun p => store p.1).filter
          fun b => decide (startSlot ≤ b.slot))
      (revIter.filterMap fun p => store p.1) :=
    (List.filter_sublist _).trans (hsub2.filterMap _)
  have hge4 := hmono.sublist hsub4
  have hrev : ((((revIter.filter fun p =>
        decide (startSlot ≤ p.2) &&
          decide (beaconBlocksUpperBoundWrapped startSlot count > p.2)).takeWhile
      fun p => decide (startSlot ≤ p.2)).filterMap fun p => store p.1).filter
      fun b => decide (startSlot ≤ b.slot)).reverse.Pairwise
      (fun a b => a.slot ≤ b.slot) :=
    List.pairwise_reverse.mpr hge4
  constructor
  · exact dedupByKey_pairwise_lt _ _ hrev
  · intro b hb
    have hb4 : b ∈ (((revIter.filter fun p =>
          decide (startSlot ≤ p.2) &&
            decide (beaconBlocksUpperBoundWrapped startSlot count > p.2)).takeWhile
        fun p => decide (startSlot ≤ p.2)).filterMap fun p => store p.1).filter
        fun b => decide (startSlot ≤ b.slot) :=
      List.mem_reverse.mp ((dedupByKey_sublist _ _).subset hb)
    obtain ⟨hb3, hbl⟩ := List.mem_filter.mp hb4
    obtain ⟨p, hp2, hpb⟩ := List.mem_filterMap.mp hb3
    have hp1 : p ∈ revIter.filter fun p =>
        decide (startSlot ≤ p.2) &&
          decide (beaconBlocksUpperBoundWrapped startSlot count > p.2) :=
      (List.takeWhile_sublist _).subset hp2
    obtain ⟨hpmem, hPcond⟩ := List.mem_filter.mp hp1
    have hub : p.2 < beaconBlocksUpperBoundWrapped startSlot count := by
      rw [Bool.and_eq_true, decide_eq_true_eq, decide_eq_true_eq] at hPcond
      exact hPcond.2
    have hslot : b.slot ≤ p.2 := by
      have hall := hstore p hpmem
      rw [hpb] at hall
      simpa using hall
    refine ⟨by simpa using hbl, ?_⟩
    calc b.slot ≤ p.2 := hslot
      _ < beaconBlocksUpperBoundWrapped startSlot count := hub
      _ ≤ startSlot + count := Nat.mod_le _ _

/-- Witness for C4: the scenario S5 chain (blocks at slots 10, 11, 13, 14, 15
with slot 12 skipped) satisfies both chain invariants, and the request
`{start_slot: 10, count: 5}` yields a sorted duplicate-free in-range
response. -/
theorem beacon_blocks_response_sorted_distinct_in_range_witness :
    (∀ p ∈ witRevIter, ((witStore p.1).all fun b => decide (b.slot ≤ p.2)) = true) ∧
    ((witRevIter.filterMap fun p => witStore p.1).Pairwise fun a b => b.slot ≤ a.slot) ∧
    ((onBeaconBlocksRequestBlocks witRevIter witStore 10 5).Pairwise
        (fun a b => a.slot < b.slot) ∧
      ∀ b ∈ onBeaconBlocksRequestBlocks witRevIter witStore 10 5,
        10 ≤ b.slot ∧ b.slot < 10 + 5) :=
  ⟨by decide, by decide,
    beacon_blocks_response_sorted_distinct_in_range witRevIter witStore 10 5
      (by decide) (by decide)⟩

/-- Claim C5 (code bug): the slot arithmetic `start_slot + count` in
`on_beacon_blocks_request` is a plain unchecked `u64` addition, not a
saturating or checked one.  At `start_slot = 2^64 - 1`, `count = 1` — values
a peer may supply — the addition overflows (panicking in debug builds); under
release-mode wrap-around the computed upper bound collapses to `0`, silently
emptying the response even for a stored block at the requested slot. -/
theorem beacon_blocks_start_plus_count_overflows :
    u64AddOverflows (2 ^ 64 - 1) 1 = true ∧
    beaconBlocksUpperBoundWrapped (2 ^ 64 - 1) 1 = 0 ∧
    onBeaconBlocksRequestBlocks [(1, 2 ^ 64 - 1)]
      (fun _ => some ⟨2 ^ 64 - 1, 0, 0, 0⟩) (2 ^ 64 - 1) 1 = [] := by
  refine ⟨by decide, by decide, by decide⟩

/-- Claim C9: on an identify `Received` event, a `listen_addrs` list of at
most 20 entries is passed on unchanged, and a longer list is cut to its first
20 entries in original order; the result never exceeds 20 entries. -/
theorem identify_listen_addrs_truncation (addrs : List Nat) :
    identifyReceivedListenAddrs addrs =
      (if addrs.length ≤ MAX_IDENTIFY_ADDRESSES then addrs
       else addrs.take MAX_IDENTIFY_ADDRESSES) ∧
    (identifyReceivedListenAddrs addrs).length =
      min addrs.length MAX_IDENTIFY_ADDRESSES := by
  constructor
  · simp only [identifyReceivedListenAddrs]
    split_ifs <;> first | rfl | omega
  · simp only [identifyReceivedListenAddrs]
    split_ifs with h
    · simp only [List.length_take]
      omega
    · omega

/-- Claim C10 (code bug): the generic wrapper `Signature::verify` recurses
into itself instead of delegating to `TSignature::verify` on the wrapped
point, so it never produces a result at any call depth; the same holds for
`fast_aggregate_verify`.  The intended delegating body would return the point
result immediately. -/
theorem signature_verify_wrapper_never_returns (pointResult : Bool) (fuel : Nat) :
    signatureVerifyCalls pointResult fuel = none ∧
    signatureFastAggregateVerifyCalls pointResult fuel = none ∧
    signatureVerifyIntended pointResult = some pointResult := by
  induction fuel with
  | zero => exact ⟨rfl, rfl, rfl⟩
  | succ n ih => exact ⟨ih.1, ih.2.1, rfl⟩

/-- Counterexample for C1: with the local and remote `PeerSyncInfo` pair held
fixed, two chains that differ only in the block root stored at the remote
finalized start slot drive `process_hello` to different outcomes (a
`Goodbye(IrrelevantNetwork)` versus an `AddPeer`), so the branch selected is
not deterministic in `(local, remote)` alone. -/
theorem processHello_branch_not_determined_by_syncinfo_alone :
    processHello cexEnvDifferentChain 0 cexLocal cexRemote ≠
      processHello cexEnvSameChain 0 cexLocal cexRemote := by decide

/-- Claim C1 as amended: for every local and remote `PeerSyncInfo` and every
local chain state (`root_at_slot` and block-store lookups), `process_hello`
yields exactly the effects of one of the three outcomes {disconnect with
`IrrelevantNetwork`, ignore, `AddPeer`}, the one assigned by the five-branch
table evaluated top-to-bottom with the first matching branch deciding; the
branch is a function of `(local, remote)` and the chain lookups (but not of
`(local, remote)` alone). -/
theorem processHello_five_branch_classification (env : ChainEnv) (peer : Nat)
    (loc remote : PeerSyncInfo) :
    processHello env peer loc remote =
      outcomeEffects peer remote (branchOutcome (helloBranch env loc remote)) ∧
    1 ≤ helloBranch env loc remote ∧ helloBranch env loc remote ≤ 5 := by
  constructor
  · simp only [processHello, helloBranch]
    split_ifs <;> first | rfl | (exfalso; omega)
  · simp only [helloBranch]
    split_ifs <;> omega

/-- Claim C2: when the remote fork version equals the local one, the local
chain root at `start_slot(remote.finalized_epoch)` equals the remote
finalized root (so branch 2 cannot fire), and the remote finalized epoch is
at least the local one, `process_hello` sends nothing on the network channel
and emits exactly one `AddPeer(peer, remote)` on the sync channel. -/
theorem processHello_compatible_peer_adds_peer (env : ChainEnv) (peer : Nat)
    (loc remote : PeerSyncInfo)
    (hfork : remote.forkVersion = loc.forkVersion)
    (hroot : env.rootAtSlot (startSlotOfEpoch remote.finalizedEpoch env.slotsPerEpoch) =
      some remote.finalizedRoot)
    (hepoch : loc.finalizedEpoch ≤ remote.finalizedEpoch) :
    processHello env peer loc remote = ([], [SyncMsg.addPeer peer remote]) := by
  simp only [processHello]
  split_ifs with h1 h2 h3
  · exact absurd hfork.symm h1
  · exact absurd hroot h2.2.2.2
  · omega
  · rfl
  · rfl

/-- Witness for C2: the scenario S3 inputs (local finalized epoch 100, remote
finalized epoch 120, same fork, matching finalized root, head unknown) make
`process_hello` emit exactly one `AddPeer`. -/
theorem processHello_compatible_peer_adds_peer_witness :
    witRemoteS3.forkVersion = witLocalS3.forkVersion ∧
    cexEnvSameChain.rootAtSlot
        (startSlotOfEpoch witRemoteS3.finalizedEpoch cexEnvSameChain.slotsPerEpoch) =
      some witRemoteS3.finalizedRoot ∧
    witLocalS3.finalizedEpoch ≤ witRemoteS3.finalizedEpoch ∧
    processHello cexEnvSameChain 3 witLocalS3 witRemoteS3 =
      ([], [SyncMsg.addPeer 3 witRemoteS3]) :=
  ⟨by decide, by decide, by decide,
    processHello_compatible_peer_adds_peer cexEnvSameChain 3 witLocalS3 witRemoteS3
      (by decide) (by decide) (by decide)⟩

/-- Claim C6: whenever `process_hello` classifies the peer as
`IrrelevantNetwork` — a fork-version mismatch, or a finalized-root mismatch
with `remote.finalized_epoch ≤ local.finalized_epoch` and both roots
non-zero — it emits exactly one `Goodbye(IrrelevantNetwork)` request (with
the substituted request id 0) to that peer and nothing on the sync channel,
in particular no `AddPeer`.  (The subsequent transport-level drop is a
`NetworkContext::disconnect` TODO outside this core.) -/
theorem processHello_irrelevant_network_goodbye (env : ChainEnv) (peer : Nat)
    (loc remote : PeerSyncInfo)
    (h : remote.forkVersion ≠ loc.forkVersion ∨
      (remote.finalizedEpoch ≤ loc.finalizedEpoch ∧ remote.finalizedRoot ≠ 0 ∧
        loc.finalizedRoot ≠ 0 ∧
        env.rootAtSlot (startSlotOfEpoch remote.finalizedEpoch env.slotsPerEpoch) ≠
          some remote.finalizedRoot)) :
    processHello env peer loc remote =
      ([NetworkMessage.rpc peer
          (RPCEvent.request 0 (RPCRequest.goodbye GoodbyeReason.irrelevantNetwork))], []) := by
  simp only [processHello]
  by_cases hf : loc.forkVersion ≠ remote.forkVersion
  · rw [if_pos hf]; rfl
  · rw [if_neg hf]
    rcases h with h | h
    · exact absurd (Ne.symm h) hf
    · rw [if_pos h]; rfl

/-- Witness for C6: the scenario S1 inputs (local fork 0, remote fork 1)
produce exactly one `Goodbye(IrrelevantNetwork)` and no sync message. -/
theorem processHello_irrelevant_network_goodbye_witness :
    (witRemoteS1.forkVersion ≠ witLocalS3.forkVersion ∨
      (witRemoteS1.finalizedEpoch ≤ witLocalS3.finalizedEpoch ∧
        witRemoteS1.finalizedRoot ≠ 0 ∧ witLocalS3.finalizedRoot ≠ 0 ∧
        cexEnvSameChain.rootAtSlot
            (startSlotOfEpoch witRemoteS1.finalizedEpoch cexEnvSameChain.slotsPerEpoch) ≠
          some witRemoteS1.finalizedRoot)) ∧
    processHello cexEnvSameChain 7 witLocalS3 witRemoteS1 =
      ([NetworkMessage.rpc 7
          (RPCEvent.request 0 (RPCRequest.goodbye GoodbyeReason.irrelevantNetwork))], []) :=
  ⟨by decide,
    processHello_irrelevant_network_goodbye cexEnvSameChain 7 witLocalS3 witRemoteS1
      (by decide)⟩

theorem responseIdsOf_processHello (env : ChainEnv) (peer : Nat)
    (loc remote : PeerSyncInfo) :
    responseIdsOf (processHello env peer loc remote).1 = [] := by
  simp only [processHello]
  split_ifs <;> rfl

/-- Claim C8: each of the three request handlers — `on_hello_request`,
`on_beacon_blocks_request`, `on_recent_beacon_blocks_request` — sends its RPC
responses carrying exactly the request id of the incoming request, and
nothing else it emits is a response. -/
theorem rpc_responses_carry_request_id (env : ChainEnv) (peer requestId : Nat)
    (loc remote : PeerSyncInfo) (revIter : List (Nat × Nat))
    (store : Nat → Option BeaconBlock) (startSlot count : Nat)
    (blockRoots : List Nat) :
    responseIdsOf (onHelloRequest env peer requestId loc remote).1 = [requestId] ∧
    responseIdsOf (onBeaconBlocksRequest revIter store peer requestId startSlot count) =
      [requestId] ∧
    responseIdsOf (onRecentBeaconBlocksRequest store peer requestId blockRoots) =
      [requestId] := by
  refine ⟨?_, rfl, rfl⟩
  have h := responseIdsOf_processHello env peer loc remote
  simp only [responseIdsOf] at h
  simp only [onHelloRequest, responseIdsOf, List.filterMap_cons, sendRpcResponseEvent]
  simp [h]

theorem injectGossipMessage_of_seen (decode : List Nat → List Nat → Option μ)
    (st : BehaviourState μ) (source id : Nat) (m : GsMessage) (h : m ∈ st.seen) :
    (injectGossipMessage decode st source id m).events = st.events ∧
    m ∈ (injectGossipMessage decode st source id m).seen := by
  constructor <;> simp [injectGossipMessage, lruPut, h]

theorem injectGossipMessage_mem_seen (decode : List Nat → List Nat → Option μ)
    (st : BehaviourState μ) (source id : Nat) (m : GsMessage) :
    m ∈ (injectGossipMessage decode st source id m).seen := by
  by_cases h : m ∈ st.seen
  · exact (injectGossipMessage_of_seen decode st source id m h).2
  · have hcap : SEEN_CACHE_CAPACITY = 255 + 1 := rfl
    cases hd : decode m.topics m.data <;>
      simp [injectGossipMessage, lruPut, h, hd, hcap, List.take_succ_cons]

theorem injectCopies_of_seen (decode : List Nat → List Nat → Option μ)
    (m : GsMessage) :
    ∀ (injs : List (Nat × Nat)) (st : BehaviourState μ), m ∈ st.seen →
      (injectCopies decode m injs st).events = st.events ∧
      m ∈ (injectCopies decode m injs st).seen := by
  intro injs
  induction injs with
  | nil => intro st h; exact ⟨rfl, h⟩
  | cons hd tl ih =>
    intro st h
    obtain ⟨s, i⟩ := hd
    obtain ⟨he, hm⟩ := injectGossipMessage_of_seen decode st s i m h
    obtain ⟨he2, hm2⟩ := ih _ hm
    simp only [injectCopies]
    exact ⟨he2.trans he, hm2⟩

/-- Claim C3: starting from a behaviour state whose seen-gossip cache does
not hold the message, injecting two or more gossip `Message` events with the
same content and topic set enqueues at most one `GossipMessage` behaviour
event in total (exactly the decoded first copy when decoding succeeds,
nothing otherwise); all further copies are dropped while the message remains
in the cache. -/
theorem gossip_duplicate_suppression (μ : Type)
    (decode : List Nat → List Nat → Option μ) (st : BehaviourState μ)
    (m : GsMessage) (injs : List (Nat × Nat))
    (hlen : 2 ≤ injs.length) (hnew : m ∉ st.seen) :
    ∃ tail, (injectCopies decode m injs st).events = st.events ++ tail ∧
      tail.length ≤ 1 ∧
      (tail = [] ∨ ∃ source id pm, decode m.topics m.data = some pm ∧
        tail = [BEvent.gossipMessage id source m.topics pm]) := by
  cases injs with
  | nil => simp at hlen
  | cons hd tl =>
    obtain ⟨s, i⟩ := hd
    simp only [injectCopies]
    have hmem : m ∈ (injectGossipMessage decode st s i m).seen :=
      injectGossipMessage_mem_seen decode st s i m
    obtain ⟨he, _⟩ := injectCopies_of_seen decode m tl _ hmem
    rw [he]
    cases hd2 : decode m.topics m.data with
    | none =>
      refine ⟨[], ?_, by simp, Or.inl rfl⟩
      simp [injectGossipMessage, lruPut, hnew, hd2]
    | some pm =>
      refine ⟨[BEvent.gossipMessage i s m.topics pm], ?_,
        by simp, Or.inr ⟨s, i, pm, hd2.symm ▸ rfl, rfl⟩⟩
      simp [injectGossipMessage, lruPut, hnew, hd2]

/-- Witness for C3: the scenario S4 injection of the same message from two
different propagation sources, starting from an empty cache, enqueues at most
one (here: exactly one, decoded) `GossipMessage` event. -/
theorem gossip_duplicate_suppression_witness :
    2 ≤ ([(1, 1), (2, 1)] : List (Nat × Nat)).length ∧
    witGsMessage ∉ (⟨[], []⟩ : BehaviourState Nat).seen ∧
    ∃ tail, (injectCopies witDecode witGsMessage [(1, 1), (2, 1)]
        (⟨[], []⟩ : BehaviourState Nat)).events =
        (⟨[], []⟩ : BehaviourState Nat).events ++ tail ∧
      tail.length ≤ 1 ∧
      (tail = [] ∨ ∃ source id pm,
        witDecode witGsMessage.topics witGsMessage.data = some pm ∧
        tail = [BEvent.gossipMessage id source witGsMessage.topics pm]) :=
  ⟨by decide, by decide,
    gossip_duplicate_suppression Nat witDecode ⟨[], []⟩ witGsMessage
      [(1, 1), (2, 1)] (by decide) (by decide)⟩

theorem resolveParentAndState_storeBlock (env : ForwardEnv)
    (block parent : BeaconBlock) (st : BeaconStateModel)
    (h : resolveParentAndState env block = some (parent, st)) :
    env.storeBlock block.parentRoot = some parent := by
  unfold resolveParentAndState at h
  split at h
  · exact absurd h (by simp)
  next q hq =>
    split at h
    next s hs =>
      simp only [Option.some.injEq, Prod.mk.injEq] at h
      rw [hq, h.1]
    · exact absurd h (by simp)

/-- Claim C7: `should_forward_block` returns `true` only if the block
signature verifies, over the signed root of the block with the
`BeaconProposer` domain for the block epoch, under the public key of the
proposer computed from a state resolved through the parent block at
`block.parent_root`.  In particular (by contraposition on the first
conjunct of the conclusion) a missing parent block, or a parent for which no
state can be obtained, forces the result `false`. -/
theorem shouldForwardBlock_true_implies_signature_verifies (env : ForwardEnv)
    (block : BeaconBlock) (h : shouldForwardBlock env block = true) :
    ∃ parent st st2 rel i proposer,
      env.storeBlock block.parentRoot = some parent ∧
      resolveParentAndState env block = some (parent, st) ∧
      resolveEpochState env block parent st = some (st2, rel) ∧
      env.getBeaconProposerIndex st2 block.slot rel = some i ∧
      st2.validators[i]? = some proposer ∧
      env.verify block.signature proposer.pubkey (env.signedRoot block)
        (env.getDomain (block.slot / env.slotsPerEpoch) DomainTag.beaconProposer
          st2.fork) = true := by
  unfold shouldForwardBlock at h
  split at h
  · exact absurd h (by simp)
  next parent st hps =>
    split at h
    · exact absurd h (by simp)
    next st2 rel hes =>
      split at h
      · exact absurd h (by simp)
      next proposer hprop =>
        split at hprop
        · exact absurd hprop (by simp)
        next i hgi =>
          exact ⟨parent, st, st2, rel, i, proposer,
            resolveParentAndState_storeBlock env block parent st hps,
            hps, hes, hgi, hprop, h⟩

/-- Witness for C7: in `fwdWitnessEnv` the block `fwdWitnessBlock` is
forwardable, and the theorem recovers the full derivation chain ending in a
successful signature verification. -/
theorem shouldForwardBlock_true_implies_signature_verifies_witness :
    shouldForwardBlock fwdWitnessEnv fwdWitnessBlock = true ∧
    ∃ parent st st2 rel i proposer,
      fwdWitnessEnv.storeBlock fwdWitnessBlock.parentRoot = some parent ∧
      resolveParentAndState fwdWitnessEnv fwdWitnessBlock = some (parent, st) ∧
      resolveEpochState fwdWitnessEnv fwdWitnessBlock parent st = some (st2, rel) ∧
      fwdWitnessEnv.getBeaconProposerIndex st2 fwdWitnessBlock.slot rel = some i ∧
      st2.validators[i]? = some proposer ∧
      fwdWitnessEnv.verify fwdWitnessBlock.signature proposer.pubkey
        (fwdWitnessEnv.signedRoot fwdWitnessBlock)
        (fwdWitnessEnv.getDomain (fwdWitnessBlock.slot / fwdWitnessEnv.slotsPerEpoch)
          DomainTag.beaconProposer st2.fork) = true :=
  ⟨by decide,
    shouldForwardBlock_true_implies_signature_verifies fwdWitnessEnv fwdWitnessBlock
      (by decide)⟩
